import Mathlib

/-!
Shallow embedding of the scale-aligned decimal arithmetic core of the
financial-ops repository (crates/financial-ops/src/core).

The Rust source is generic over a magnitude type `T`; its concrete instances
are the fixed-width machine integers (`impl_checked_arithmetic! { u8 u16 u32
u64 u128 i8 i16 i32 i64 i128 usize isize }`).  We embed a machine-integer
type as a signedness flag `s` together with a bit width `w`; a value of that
type is an `Int` lying between `intMin s w` and `intMax s w`.

Modelling conventions:
* magnitude arithmetic (the `Add`/`Sub`/`Mul` operators used by the
  unchecked engine) is modelled with two's-complement wrapping via `wrap`
  (Rust release-profile overflow semantics);
* native division and remainder are modelled as `Option`-valued, `none`
  standing for the Rust abort on a zero divisor or on signed `MIN / -1`
  range exceedance (those abort in every build profile);
* the `u32` bookkeeping arithmetic of the engines (the inline
  `10u32.pow(e)` scale-factor exponentiation and the
  `self_decimals + other_decimals` scale addition) is modelled as
  `Option`-valued, `none` standing for the u32 overflow abort; in the
  checked engine this failure lies outside the `DecimalOperationError`
  channel and is recorded by the dedicated outcome `COut.abort`.
-/

/-- Error taxonomy of the checked engine (src/core/error.rs,
`DecimalOperationError`). -/
inductive DecimalOperationError where
  | Overflow : DecimalOperationError
  | DivisionByZero : DecimalOperationError
  deriving DecidableEq

/-- Outcome of a checked-engine operation: a magnitude/scale pair, an error
of the engine's error channel, or an abort of the surrounding u32
bookkeeping arithmetic (which in the Rust source is unguarded and never
reaches the error channel). -/
inductive COut where
  | abort : COut
  | err : DecimalOperationError → COut
  | ok : Int → Nat → COut
  deriving DecidableEq

/-- Largest value of the Rust type u32. -/
def u32Max : Nat := 2 ^ 32 - 1

/-- Embedding of the inline expression `10u32.pow(e)` (u32 exponentiation,
aborting when the mathematical power exceeds `u32Max`). -/
def pow10u32 (e : Nat) : Option Nat :=
  if 10 ^ e ≤ u32Max then some (10 ^ e) else none

/-- Embedding of the inline u32 addition `self_decimals + other_decimals`
used by `multiply_decimals`, aborting on u32 overflow. -/
def u32add (x y : Nat) : Option Nat :=
  if x + y ≤ u32Max then some (x + y) else none

/-- Least value of the machine-integer type with signedness `s` and width
`w`. -/
def intMin : Bool → Nat → Int
  | false, _ => 0
  | true, w => -((2 : Int) ^ (w - 1))

/-- Greatest value of the machine-integer type with signedness `s` and width
`w`. -/
def intMax : Bool → Nat → Int
  | false, w => (2 : Int) ^ w - 1
  | true, w => (2 : Int) ^ (w - 1) - 1

/-- The integer `x` is representable in the machine-integer type `(s, w)`. -/
abbrev inRange (s : Bool) (w : Nat) (x : Int) : Prop :=
  intMin s w ≤ x ∧ x ≤ intMax s w

/-- Two's-complement reduction of an integer into the range of the
machine-integer type `(s, w)`. -/
def wrap : Bool → Nat → Int → Int
  | false, w, x => x % (2 : Int) ^ w
  | true, w, x => (x + (2 : Int) ^ (w - 1)) % (2 : Int) ^ w - (2 : Int) ^ (w - 1)

/-! Checked primitive operations (src/core/checked/helper_traits.rs, with
the per-type implementations generated by `impl_checked_arithmetic` in
src/core/checked/impl_checked_arithmetic_macro.rs, which forward to the
standard `checked_add` .. `checked_rem` of each machine-integer type). -/

/-- Rust `checked_add` of the machine-integer type `(s, w)`. -/
def checked_add (s : Bool) (w : Nat) (x y : Int) : Option Int :=
  if inRange s w (x + y) then some (x + y) else none

/-- Rust `checked_sub` of the machine-integer type `(s, w)`. -/
def checked_sub (s : Bool) (w : Nat) (x y : Int) : Option Int :=
  if inRange s w (x - y) then some (x - y) else none

/-- Rust `checked_mul` of the machine-integer type `(s, w)`. -/
def checked_mul (s : Bool) (w : Nat) (x y : Int) : Option Int :=
  if inRange s w (x * y) then some (x * y) else none

/-- Rust `checked_div` of the machine-integer type `(s, w)`: `none` exactly
on a zero divisor or on the signed `MIN / -1` range exceedance; otherwise
the quotient truncated toward zero. -/
def checked_div (s : Bool) (w : Nat) (x y : Int) : Option Int :=
  if y = 0 ∨ (s = true ∧ x = intMin s w ∧ y = -1) then none
  else some (Int.tdiv x y)

/-- Rust `checked_rem` of the machine-integer type `(s, w)`: `none` exactly
on a zero divisor or on the signed `MIN / -1` range exceedance; otherwise
the remainder with the sign of the dividend. -/
def checked_rem (s : Bool) (w : Nat) (x y : Int) : Option Int :=
  if y = 0 ∨ (s = true ∧ x = intMin s w ∧ y = -1) then none
  else some (Int.tmod x y)

/-! Unchecked decimal engine: blanket implementation of the trait
`DecimalOperations` (src/core/unchecked/operations.rs, lines 96-135).  A
`none` result models a Rust abort (u32 factor-exponentiation overflow, zero
divisor, or signed division range exceedance). -/

/-- Embedding of `add_decimals` (src/core/unchecked/operations.rs). -/
def add_decimals (s : Bool) (w : Nat) (a b : Int)
    (self_decimals other_decimals : Nat) : Option (Int × Nat) :=
  if self_decimals > other_decimals then
    match pow10u32 (self_decimals - other_decimals) with
    | some f => some (wrap s w (a + wrap s w (b * (f : Int))), self_decimals)
    | none => none
  else
    match pow10u32 (other_decimals - self_decimals) with
    | some f => some (wrap s w (wrap s w (a * (f : Int)) + b), other_decimals)
    | none => none

/-- Embedding of `sub_decimals` (src/core/unchecked/operations.rs). -/
def sub_decimals (s : Bool) (w : Nat) (a b : Int)
    (self_decimals other_decimals : Nat) : Option (Int × Nat) :=
  if self_decimals > other_decimals then
    match pow10u32 (self_decimals - other_decimals) with
    | some f => some (wrap s w (a - wrap s w (b * (f : Int))), self_decimals)
    | none => none
  else
    match pow10u32 (other_decimals - self_decimals) with
    | some f => some (wrap s w (wrap s w (a * (f : Int)) - b), other_decimals)
    | none => none

/-- Embedding of `multiply_decimals` (src/core/unchecked/operations.rs). -/
def multiply_decimals (s : Bool) (w : Nat) (a b : Int)
    (self_decimals other_decimals : Nat) : Option (Int × Nat) :=
  match u32add self_decimals other_decimals with
  | some d => some (wrap s w (a * b), d)
  | none => none

/-- Embedding of `divide_decimals` (src/core/unchecked/operations.rs): the
dividend is scaled by `10 ^ other_decimals` and then divided by the raw
divisor with the native `/`, which aborts on a zero divisor or on signed
`MIN / -1`. -/
def divide_decimals (s : Bool) (w : Nat) (a b : Int)
    (self_decimals other_decimals : Nat) : Option (Int × Nat) :=
  match pow10u32 other_decimals with
  | some f =>
    let adjusted_value := wrap s w (a * (f : Int))
    if b = 0 ∨ (s = true ∧ adjusted_value = intMin s w ∧ b = -1) then none
    else some (Int.tdiv adjusted_value b, self_decimals)
  | none => none

/-- Embedding of `rem_decimals` (src/core/unchecked/operations.rs): the
dividend is scaled by `10 ^ self_decimals` (its own scale) and the last
parameter `_other_decimals` is accepted but unused. -/
def rem_decimals (s : Bool) (w : Nat) (a b : Int)
    (self_decimals _other_decimals : Nat) : Option (Int × Nat) :=
  match pow10u32 self_decimals with
  | some f =>
    let adjusted_value := wrap s w (a * (f : Int))
    if b = 0 ∨ (s = true ∧ adjusted_value = intMin s w ∧ b = -1) then none
    else some (Int.tmod adjusted_value b, self_decimals)
  | none => none

/-! Checked decimal engine: blanket implementation of the trait
`CheckedDecimalOperations` (src/core/checked/checked_operations.rs,
lines 126-225). -/

/-- Embedding of `add_decimals_checked`
(src/core/checked/checked_operations.rs). -/
def add_decimals_checked (s : Bool) (w : Nat) (a b : Int)
    (self_decimals other_decimals : Nat) : COut :=
  if self_decimals > other_decimals then
    match pow10u32 (self_decimals - other_decimals) with
    | some f =>
      match checked_mul s w b (f : Int) with
      | some bf =>
        match checked_add s w a bf with
        | some value => COut.ok value self_decimals
        | none => COut.err DecimalOperationError.Overflow
      | none => COut.err DecimalOperationError.Overflow
    | none => COut.abort
  else
    match pow10u32 (other_decimals - self_decimals) with
    | some f =>
      match (checked_mul s w a (f : Int)).bind (fun x => checked_add s w x b) with
      | some value => COut.ok value other_decimals
      | none => COut.err DecimalOperationError.Overflow
    | none => COut.abort

/-- Embedding of `sub_decimals_checked`
(src/core/checked/checked_operations.rs). -/
def sub_decimals_checked (s : Bool) (w : Nat) (a b : Int)
    (self_decimals other_decimals : Nat) : COut :=
  if self_decimals > other_decimals then
    match pow10u32 (self_decimals - other_decimals) with
    | some f =>
      match checked_mul s w b (f : Int) with
      | some bf =>
        match checked_sub s w a bf with
        | some value => COut.ok value self_decimals
        | none => COut.err DecimalOperationError.Overflow
      | none => COut.err DecimalOperationError.Overflow
    | none => COut.abort
  else
    match pow10u32 (other_decimals - self_decimals) with
    | some f =>
      match (checked_mul s w a (f : Int)).bind (fun x => checked_sub s w x b) with
      | some value => COut.ok value other_decimals
      | none => COut.err DecimalOperationError.Overflow
    | none => COut.abort

/-- Embedding of `multiply_decimals_checked`
(src/core/checked/checked_operations.rs, lines 182-192): the product is
checked, while the result scale is the unchecked u32 sum
`self_decimals + other_decimals`, computed only in the success branch. -/
def multiply_decimals_checked (s : Bool) (w : Nat) (a b : Int)
    (self_decimals other_decimals : Nat) : COut :=
  match checked_mul s w a b with
  | some value =>
    match u32add self_decimals other_decimals with
    | some d => COut.ok value d
    | none => COut.abort
  | none => COut.err DecimalOperationError.Overflow

/-- Embedding of `divide_decimals_checked`
(src/core/checked/checked_operations.rs, lines 194-208): the scale
multiplication failing maps to `Overflow`; the checked division failing
maps to `DivisionByZero`.  There is no divisor zero test before the
checked division. -/
def divide_decimals_checked (s : Bool) (w : Nat) (a b : Int)
    (self_decimals other_decimals : Nat) : COut :=
  match pow10u32 other_decimals with
  | some f =>
    match checked_mul s w a (f : Int) with
    | some adjusted_value =>
      match checked_div s w adjusted_value b with
      | some value => COut.ok value self_decimals
      | none => COut.err DecimalOperationError.DivisionByZero
    | none => COut.err DecimalOperationError.Overflow
  | none => COut.abort

/-- Embedding of `rem_decimals_checked`
(src/core/checked/checked_operations.rs, lines 210-224): the factor uses
`self_decimals` and the last parameter `_other_decimals` is accepted but
unused. -/
def rem_decimals_checked (s : Bool) (w : Nat) (a b : Int)
    (self_decimals _other_decimals : Nat) : COut :=
  match pow10u32 self_decimals with
  | some f =>
    match checked_mul s w a (f : Int) with
    | some adjusted_value =>
      match checked_rem s w adjusted_value b with
      | some value => COut.ok value self_decimals
      | none => COut.err DecimalOperationError.DivisionByZero
    | none => COut.err DecimalOperationError.Overflow
  | none => COut.abort

/-! Spec-side descriptions used in the statements: the ideal (non-wrapped)
results of scale alignment and the predicates asserting that the magnitude
arithmetic steps of an operation all stay in range. -/

/-- Ideal result of `add_decimals` as the spec describes it: the operand of
smaller scale is multiplied by ten to the scale difference and the
magnitudes are combined with exact integer arithmetic. -/
def alignedAdd (a b : Int) (sa sb : Nat) : Int × Nat :=
  if sa > sb then (a + b * (10 : Int) ^ (sa - sb), sa)
  else (a * (10 : Int) ^ (sb - sa) + b, sb)

/-- Ideal result of `sub_decimals` as the spec describes it. -/
def alignedSub (a b : Int) (sa sb : Nat) : Int × Nat :=
  if sa > sb then (a - b * (10 : Int) ^ (sa - sb), sa)
  else (a * (10 : Int) ^ (sb - sa) - b, sb)

/-- Both magnitude arithmetic steps of `add_decimals` (the factor
multiplication and the addition) stay in the range of the machine-integer
type, so native arithmetic neither wraps nor aborts there. -/
def addStepsInRange (s : Bool) (w : Nat) (a b : Int) (sa sb : Nat) : Prop :=
  if sa > sb then
    inRange s w (b * (10 : Int) ^ (sa - sb)) ∧
      inRange s w (a + b * (10 : Int) ^ (sa - sb))
  else
    inRange s w (a * (10 : Int) ^ (sb - sa)) ∧
      inRange s w (a * (10 : Int) ^ (sb - sa) + b)

instance addStepsInRange.decidable (s : Bool) (w : Nat) (a b : Int)
    (sa sb : Nat) : Decidable (addStepsInRange s w a b sa sb) := by
  unfold addStepsInRange
  infer_instance

/-- Both magnitude arithmetic steps of `sub_decimals` stay in the range of
the machine-integer type. -/
def subStepsInRange (s : Bool) (w : Nat) (a b : Int) (sa sb : Nat) : Prop :=
  if sa > sb then
    inRange s w (b * (10 : Int) ^ (sa - sb)) ∧
      inRange s w (a - b * (10 : Int) ^ (sa - sb))
  else
    inRange s w (a * (10 : Int) ^ (sb - sa)) ∧
      inRange s w (a * (10 : Int) ^ (sb - sa) - b)

instance subStepsInRange.decidable (s : Bool) (w : Nat) (a b : Int)
    (sa sb : Nat) : Decidable (subStepsInRange s w a b sa sb) := by
  unfold subStepsInRange
  infer_instance

/-! Basic lemmas about the numeric model. -/

theorem pow10u32_eq_some (e : Nat) (h : 10 ^ e ≤ u32Max) :
    pow10u32 e = some (10 ^ e) := by
  simp [pow10u32, h]

theorem pow10u32_eq_none (e : Nat) (h : u32Max < 10 ^ e) :
    pow10u32 e = none := by
  unfold pow10u32
  rw [if_neg (by omega)]

theorem u32add_eq_some (x y : Nat) (h : x + y ≤ u32Max) :
    u32add x y = some (x + y) := by
  simp [u32add, h]

theorem u32add_eq_none (x y : Nat) (h : u32Max < x + y) :
    u32add x y = none := by
  unfold u32add
  rw [if_neg (by omega)]

theorem cast_pow10 (e : Nat) : ((10 ^ e : Nat) : Int) = (10 : Int) ^ e := by
  push_cast
  ring

/-- Two's-complement reduction is the identity on representable values. -/
theorem wrap_eq_of_inRange (s : Bool) (w : Nat) (x : Int) (hw : 0 < w)
    (h : inRange s w x) : wrap s w x = x := by
  obtain ⟨h1, h2⟩ := h
  cases s with
  | false =>
      simp only [intMin] at h1
      simp only [intMax] at h2
      simp only [wrap]
      exact Int.emod_eq_of_lt h1 (by omega)
  | true =>
      simp only [intMin] at h1
      simp only [intMax] at h2
      simp only [wrap]
      have hw1 : w - 1 + 1 = w := Nat.succ_pred_eq_of_pos hw
      have hp : (2 : Int) ^ (w - 1) + (2 : Int) ^ (w - 1) = (2 : Int) ^ w := by
        calc (2 : Int) ^ (w - 1) + (2 : Int) ^ (w - 1)
            = (2 : Int) ^ (w - 1) * 2 := by ring
          _ = (2 : Int) ^ (w - 1 + 1) := by rw [pow_succ]
          _ = (2 : Int) ^ w := by rw [hw1]
      have hlt : x + (2 : Int) ^ (w - 1) < (2 : Int) ^ w := by
        rw [← hp]
        linarith
      have hmod : (x + (2 : Int) ^ (w - 1)) % (2 : Int) ^ w
          = x + (2 : Int) ^ (w - 1) :=
        Int.emod_eq_of_lt (by linarith) hlt
      rw [hmod]
      ring

/-! Agreement of the two engines on overflow-free inputs, one lemma per
operation.  Each lemma simultaneously pins down the exact result. -/

theorem add_agree (s : Bool) (w : Nat) (a b : Int) (sa sb : Nat) (hw : 0 < w)
    (hp1 : 10 ^ (sa - sb) ≤ u32Max) (hp2 : 10 ^ (sb - sa) ≤ u32Max)
    (hA : addStepsInRange s w a b sa sb) :
    add_decimals s w a b sa sb = some (alignedAdd a b sa sb) ∧
    add_decimals_checked s w a b sa sb =
      COut.ok (alignedAdd a b sa sb).1 (alignedAdd a b sa sb).2 := by
  unfold addStepsInRange at hA
  by_cases hgt : sa > sb
  · rw [if_pos hgt] at hA
    obtain ⟨h1, h2⟩ := hA
    have hpow := pow10u32_eq_some (sa - sb) hp1
    have hm : checked_mul s w b ((10 ^ (sa - sb) : Nat) : Int) =
        some (b * (10 : Int) ^ (sa - sb)) := by
      rw [cast_pow10]
      unfold checked_mul
      rw [if_pos h1]
    have ha : checked_add s w a (b * (10 : Int) ^ (sa - sb)) =
        some (a + b * (10 : Int) ^ (sa - sb)) := by
      unfold checked_add
      rw [if_pos h2]
    constructor
    · unfold add_decimals
      rw [if_pos hgt]
      simp only [hpow, cast_pow10, wrap_eq_of_inRange s w _ hw h1,
        wrap_eq_of_inRange s w _ hw h2, alignedAdd, if_pos hgt]
    · unfold add_decimals_checked
      rw [if_pos hgt]
      simp only [hpow, hm, ha, alignedAdd, if_pos hgt]
  · rw [if_neg hgt] at hA
    obtain ⟨h1, h2⟩ := hA
    have hpow := pow10u32_eq_some (sb - sa) hp2
    have hm : checked_mul s w a ((10 ^ (sb - sa) : Nat) : Int) =
        some (a * (10 : Int) ^ (sb - sa)) := by
      rw [cast_pow10]
      unfold checked_mul
      rw [if_pos h1]
    have ha : checked_add s w (a * (10 : Int) ^ (sb - sa)) b =
        some (a * (10 : Int) ^ (sb - sa) + b) := by
      unfold checked_add
      rw [if_pos h2]
    constructor
    · unfold add_decimals
      rw [if_neg hgt]
      simp only [hpow, cast_pow10, wrap_eq_of_inRange s w _ hw h1,
        wrap_eq_of_inRange s w _ hw h2, alignedAdd, if_neg hgt]
    · unfold add_decimals_checked
      rw [if_neg hgt]
      simp only [hpow, hm, Option.some_bind, ha, alignedAdd, if_neg hgt]

theorem sub_agree (s : Bool) (w : Nat) (a b : Int) (sa sb : Nat) (hw : 0 < w)
    (hp1 : 10 ^ (sa - sb) ≤ u32Max) (hp2 : 10 ^ (sb - sa) ≤ u32Max)
    (hS : subStepsInRange s w a b sa sb) :
    sub_decimals s w a b sa sb = some (alignedSub a b sa sb) ∧
    sub_decimals_checked s w a b sa sb =
      COut.ok (alignedSub a b sa sb).1 (alignedSub a b sa sb).2 := by
  unfold subStepsInRange at hS
  by_cases hgt : sa > sb
  · rw [if_pos hgt] at hS
    obtain ⟨h1, h2⟩ := hS
    have hpow := pow10u32_eq_some (sa - sb) hp1
    have hm : checked_mul s w b ((10 ^ (sa - sb) : Nat) : Int) =
        some (b * (10 : Int) ^ (sa - sb)) := by
      rw [cast_pow10]
      unfold checked_mul
      rw [if_pos h1]
    have ha : checked_sub s w a (b * (10 : Int) ^ (sa - sb)) =
        some (a - b * (10 : Int) ^ (sa - sb)) := by
      unfold checked_sub
      rw [if_pos h2]
    constructor
    · unfold sub_decimals
      rw [if_pos hgt]
      simp only [hpow, cast_pow10, wrap_eq_of_inRange s w _ hw h1,
        wrap_eq_of_inRange s w _ hw h2, alignedSub, if_pos hgt]
    · unfold sub_decimals_checked
      rw [if_pos hgt]
      simp only [hpow, hm, ha, alignedSub, if_pos hgt]
  · rw [if_neg hgt] at hS
    obtain ⟨h1, h2⟩ := hS
    have hpow := pow10u32_eq_some (sb - sa) hp2
    have hm : checked_mul s w a ((10 ^ (sb - sa) : Nat) : Int) =
        some (a * (10 : Int) ^ (sb - sa)) := by
      rw [cast_pow10]
      unfold checked_mul
      rw [if_pos h1]
    have ha : checked_sub s w (a * (10 : Int) ^ (sb - sa)) b =
        some (a * (10 : Int) ^ (sb - sa) - b) := by
      unfold checked_sub
      rw [if_pos h2]
    constructor
    · unfold sub_decimals
      rw [if_neg hgt]
      simp only [hpow, cast_pow10, wrap_eq_of_inRange s w _ hw h1,
        wrap_eq_of_inRange s w _ hw h2, alignedSub, if_neg hgt]
    · unfold sub_decimals_checked
      rw [if_neg hgt]
      simp only [hpow, hm, Option.some_bind, ha, alignedSub, if_neg hgt]

theorem mul_agree (s : Bool) (w : Nat) (a b : Int) (sa sb : Nat) (hw : 0 < w)
    (hm : inRange s w (a * b)) (hsc : sa + sb ≤ u32Max) :
    multiply_decimals s w a b sa sb = some (a * b, sa + sb) ∧
    multiply_decimals_checked s w a b sa sb = COut.ok (a * b) (sa + sb) := by
  have hadd := u32add_eq_some sa sb hsc
  have hcm : checked_mul s w a b = some (a * b) := by
    unfold checked_mul
    rw [if_pos hm]
  constructor
  · unfold multiply_decimals
    simp only [hadd, wrap_eq_of_inRange s w _ hw hm]
  · unfold multiply_decimals_checked
    simp only [hcm, hadd]

theorem div_agree (s : Bool) (w : Nat) (a b : Int) (sa sb : Nat) (hw : 0 < w)
    (hp : 10 ^ sb ≤ u32Max) (hb : b ≠ 0)
    (hadj : inRange s w (a * (10 : Int) ^ sb))
    (hnov : ¬(s = true ∧ a * (10 : Int) ^ sb = intMin s w ∧ b = -1)) :
    divide_decimals s w a b sa sb =
      some (Int.tdiv (a * (10 : Int) ^ sb) b, sa) ∧
    divide_decimals_checked s w a b sa sb =
      COut.ok (Int.tdiv (a * (10 : Int) ^ sb) b) sa := by
  have hpow := pow10u32_eq_some sb hp
  have hwr : wrap s w (a * ((10 ^ sb : Nat) : Int)) = a * (10 : Int) ^ sb := by
    rw [cast_pow10]
    exact wrap_eq_of_inRange s w _ hw hadj
  have hcond : ¬(b = 0 ∨ (s = true ∧ a * (10 : Int) ^ sb = intMin s w ∧ b = -1)) := by
    intro hor
    rcases hor with h0 | hsig
    · exact hb h0
    · exact hnov hsig
  have hcm : checked_mul s w a ((10 ^ sb : Nat) : Int) =
      some (a * (10 : Int) ^ sb) := by
    rw [cast_pow10]
    unfold checked_mul
    rw [if_pos hadj]
  have hcd : checked_div s w (a * (10 : Int) ^ sb) b =
      some (Int.tdiv (a * (10 : Int) ^ sb) b) := by
    unfold checked_div
    rw [if_neg hcond]
  constructor
  · unfold divide_decimals
    simp only [hpow, hwr, if_neg hcond]
  · unfold divide_decimals_checked
    simp only [hpow, hcm, hcd]

theorem rem_agree (s : Bool) (w : Nat) (a b : Int) (sa sb : Nat) (hw : 0 < w)
    (hp : 10 ^ sa ≤ u32Max) (hb : b ≠ 0)
    (hadj : inRange s w (a * (10 : Int) ^ sa))
    (hnov : ¬(s = true ∧ a * (10 : Int) ^ sa = intMin s w ∧ b = -1)) :
    rem_decimals s w a b sa sb =
      some (Int.tmod (a * (10 : Int) ^ sa) b, sa) ∧
    rem_decimals_checked s w a b sa sb =
      COut.ok (Int.tmod (a * (10 : Int) ^ sa) b) sa := by
  have hpow := pow10u32_eq_some sa hp
  have hwr : wrap s w (a * ((10 ^ sa : Nat) : Int)) = a * (10 : Int) ^ sa := by
    rw [cast_pow10]
    exact wrap_eq_of_inRange s w _ hw hadj
  have hcond : ¬(b = 0 ∨ (s = true ∧ a * (10 : Int) ^ sa = intMin s w ∧ b = -1)) := by
    intro hor
    rcases hor with h0 | hsig
    · exact hb h0
    · exact hnov hsig
  have hcm : checked_mul s w a ((10 ^ sa : Nat) : Int) =
      some (a * (10 : Int) ^ sa) := by
    rw [cast_pow10]
    unfold checked_mul
    rw [if_pos hadj]
  have hcr : checked_rem s w (a * (10 : Int) ^ sa) b =
      some (Int.tmod (a * (10 : Int) ^ sa) b) := by
    unfold checked_rem
    rw [if_neg hcond]
  constructor
  · unfold rem_decimals
    simp only [hpow, hwr, if_neg hcond]
  · unfold rem_decimals_checked
    simp only [hpow, hcm, hcr]

/-! Overflow propagation of the checked engine, one lemma per operation:
whenever a magnitude arithmetic step falls out of range, the checked
operation reports the Overflow error. -/

theorem add_checked_overflow (s : Bool) (w : Nat) (a b : Int) (sa sb : Nat)
    (hp1 : 10 ^ (sa - sb) ≤ u32Max) (hp2 : 10 ^ (sb - sa) ≤ u32Max)
    (hA : ¬ addStepsInRange s w a b sa sb) :
    add_decimals_checked s w a b sa sb =
      COut.err DecimalOperationError.Overflow := by
  unfold addStepsInRange at hA
  by_cases hgt : sa > sb
  · rw [if_pos hgt] at hA
    unfold add_decimals_checked
    rw [if_pos hgt]
    by_cases h1 : inRange s w (b * (10 : Int) ^ (sa - sb))
    · have h2 : ¬ inRange s w (a + b * (10 : Int) ^ (sa - sb)) :=
        fun h2 => hA ⟨h1, h2⟩
      have hm : checked_mul s w b ((10 ^ (sa - sb) : Nat) : Int) =
          some (b * (10 : Int) ^ (sa - sb)) := by
        rw [cast_pow10]
        unfold checked_mul
        rw [if_pos h1]
      have ha : checked_add s w a (b * (10 : Int) ^ (sa - sb)) = none := by
        unfold checked_add
        rw [if_neg h2]
      simp only [pow10u32_eq_some _ hp1, hm, ha]
    · have hm : checked_mul s w b ((10 ^ (sa - sb) : Nat) : Int) = none := by
        rw [cast_pow10]
        unfold checked_mul
        rw [if_neg h1]
      simp only [pow10u32_eq_some _ hp1, hm]
  · rw [if_neg hgt] at hA
    unfold add_decimals_checked
    rw [if_neg hgt]
    by_cases h1 : inRange s w (a * (10 : Int) ^ (sb - sa))
    · have h2 : ¬ inRange s w (a * (10 : Int) ^ (sb - sa) + b) :=
        fun h2 => hA ⟨h1, h2⟩
      have hm : checked_mul s w a ((10 ^ (sb - sa) : Nat) : Int) =
          some (a * (10 : Int) ^ (sb - sa)) := by
        rw [cast_pow10]
        unfold checked_mul
        rw [if_pos h1]
      have ha : checked_add s w (a * (10 : Int) ^ (sb - sa)) b = none := by
        unfold checked_add
        rw [if_neg h2]
      simp only [pow10u32_eq_some _ hp2, hm, Option.some_bind, ha]
    · have hm : checked_mul s w a ((10 ^ (sb - sa) : Nat) : Int) = none := by
        rw [cast_pow10]
        unfold checked_mul
        rw [if_neg h1]
      simp only [pow10u32_eq_some _ hp2, hm, Option.none_bind]

theorem sub_checked_overflow (s : Bool) (w : Nat) (a b : Int) (sa sb : Nat)
    (hp1 : 10 ^ (sa - sb) ≤ u32Max) (hp2 : 10 ^ (sb - sa) ≤ u32Max)
    (hS : ¬ subStepsInRange s w a b sa sb) :
    sub_decimals_checked s w a b sa sb =
      COut.err DecimalOperationError.Overflow := by
  unfold subStepsInRange at hS
  by_cases hgt : sa > sb
  · rw [if_pos hgt] at hS
    unfold sub_decimals_checked
    rw [if_pos hgt]
    by_cases h1 : inRange s w (b * (10 : Int) ^ (sa - sb))
    · have h2 : ¬ inRange s w (a - b * (10 : Int) ^ (sa - sb)) :=
        fun h2 => hS ⟨h1, h2⟩
      have hm : checked_mul s w b ((10 ^ (sa - sb) : Nat) : Int) =
          some (b * (10 : Int) ^ (sa - sb)) := by
        rw [cast_pow10]
        unfold checked_mul
        rw [if_pos h1]
      have ha : checked_sub s w a (b * (10 : Int) ^ (sa - sb)) = none := by
        unfold checked_sub
        rw [if_neg h2]
      simp only [pow10u32_eq_some _ hp1, hm, ha]
    · have hm : checked_mul s w b ((10 ^ (sa - sb) : Nat) : Int) = none := by
        rw [cast_pow10]
        unfold checked_mul
        rw [if_neg h1]
      simp only [pow10u32_eq_some _ hp1, hm]
  · rw [if_neg hgt] at hS
    unfold sub_decimals_checked
    rw [if_neg hgt]
    by_cases h1 : inRange s w (a * (10 : Int) ^ (sb - sa))
    · have h2 : ¬ inRange s w (a * (10 : Int) ^ (sb - sa) - b) :=
        fun h2 => hS ⟨h1, h2⟩
      have hm : checked_mul s w a ((10 ^ (sb - sa) : Nat) : Int) =
          some (a * (10 : Int) ^ (sb - sa)) := by
        rw [cast_pow10]
        unfold checked_mul
        rw [if_pos h1]
      have ha : checked_sub s w (a * (10 : Int) ^ (sb - sa)) b = none := by
        unfold checked_sub
        rw [if_neg h2]
      simp only [pow10u32_eq_some _ hp2, hm, Option.some_bind, ha]
    · have hm : checked_mul s w a ((10 ^ (sb - sa) : Nat) : Int) = none := by
        rw [cast_pow10]
        unfold checked_mul
        rw [if_neg h1]
      simp only [pow10u32_eq_some _ hp2, hm, Option.none_bind]

theorem mul_checked_overflow (s : Bool) (w : Nat) (a b : Int) (sa sb : Nat)
    (hM : ¬ inRange s w (a * b)) :
    multiply_decimals_checked s w a b sa sb =
      COut.err DecimalOperationError.Overflow := by
  have hm : checked_mul s w a b = none := by
    unfold checked_mul
    rw [if_neg hM]
  unfold multiply_decimals_checked
  simp only [hm]

theorem div_checked_scale_overflow (s : Bool) (w : Nat) (a b : Int)
    (sa sb : Nat) (hp : 10 ^ sb ≤ u32Max)
    (hD : ¬ inRange s w (a * (10 : Int) ^ sb)) :
    divide_decimals_checked s w a b sa sb =
      COut.err DecimalOperationError.Overflow := by
  have hm : checked_mul s w a ((10 ^ sb : Nat) : Int) = none := by
    rw [cast_pow10]
    unfold checked_mul
    rw [if_neg hD]
  unfold divide_decimals_checked
  simp only [pow10u32_eq_some _ hp, hm]

theorem rem_checked_scale_overflow (s : Bool) (w : Nat) (a b : Int)
    (sa sb : Nat) (hp : 10 ^ sa ≤ u32Max)
    (hR : ¬ inRange s w (a * (10 : Int) ^ sa)) :
    rem_decimals_checked s w a b sa sb =
      COut.err DecimalOperationError.Overflow := by
  have hm : checked_mul s w a ((10 ^ sa : Nat) : Int) = none := by
    rw [cast_pow10]
    unfold checked_mul
    rw [if_neg hR]
  unfold rem_decimals_checked
  simp only [pow10u32_eq_some _ hp, hm]

/-- C1 counterexample: claim C1 states that checked divide and remainder
return a DivisionByZero failure whenever the divisor is zero "and never
return an Overflow failure in that case, even when multiplying the dividend
by the scale factor would itself overflow".  On u64 with dividend `2 ^ 63`,
divisor `0` and divisor scale `1`, the scale multiplication `2 ^ 63 * 10`
overflows, and the code returns Overflow, not DivisionByZero: the divisor
is not checked for zero before the scale multiplication. -/
theorem c1_zero_divisor_gets_overflow_counterexample :
    divide_decimals_checked false 64 (2 ^ 63) 0 0 1 =
        COut.err DecimalOperationError.Overflow ∧
      divide_decimals_checked false 64 (2 ^ 63) 0 0 1 ≠
        COut.err DecimalOperationError.DivisionByZero ∧
      rem_decimals_checked false 64 (2 ^ 63) 0 1 0 =
        COut.err DecimalOperationError.Overflow ∧
      rem_decimals_checked false 64 (2 ^ 63) 0 1 0 ≠
        COut.err DecimalOperationError.DivisionByZero := by
  refine ⟨by decide, by decide, by decide, by decide⟩

/-- C1 amended: whenever the divisor's raw magnitude is zero and the
scale multiplication of the dividend stays in range, checked divide and
remainder return DivisionByZero; but when that scale multiplication
overflows they return Overflow even though the divisor is zero (the
implementation does not check the divisor for zero before invoking the
checked division/remainder primitive; it maps a failing primitive to
DivisionByZero). -/
theorem c1_zero_divisor_attribution (s : Bool) (w : Nat) (a a2 : Int)
    (sa sb sa2 sb2 : Nat)
    (hpd : 10 ^ sb ≤ u32Max) (hpr : 10 ^ sa ≤ u32Max)
    (hpd2 : 10 ^ sb2 ≤ u32Max) (hpr2 : 10 ^ sa2 ≤ u32Max)
    (hin1 : inRange s w (a * (10 : Int) ^ sb))
    (hin2 : inRange s w (a * (10 : Int) ^ sa))
    (hov1 : ¬ inRange s w (a2 * (10 : Int) ^ sb2))
    (hov2 : ¬ inRange s w (a2 * (10 : Int) ^ sa2)) :
    divide_decimals_checked s w a 0 sa sb =
        COut.err DecimalOperationError.DivisionByZero ∧
      rem_decimals_checked s w a 0 sa sb =
        COut.err DecimalOperationError.DivisionByZero ∧
      divide_decimals_checked s w a2 0 sa2 sb2 =
        COut.err DecimalOperationError.Overflow ∧
      rem_decimals_checked s w a2 0 sa2 sb2 =
        COut.err DecimalOperationError.Overflow := by
  refine ⟨?_, ?_, ?_, ?_⟩
  · have hcm : checked_mul s w a ((10 ^ sb : Nat) : Int) =
        some (a * (10 : Int) ^ sb) := by
      rw [cast_pow10]
      unfold checked_mul
      rw [if_pos hin1]
    have hcd : checked_div s w (a * (10 : Int) ^ sb) 0 = none := by
      unfold checked_div
      rw [if_pos (Or.inl rfl)]
    unfold divide_decimals_checked
    simp only [pow10u32_eq_some _ hpd, hcm, hcd]
  · have hcm : checked_mul s w a ((10 ^ sa : Nat) : Int) =
        some (a * (10 : Int) ^ sa) := by
      rw [cast_pow10]
      unfold checked_mul
      rw [if_pos hin2]
    have hcr : checked_rem s w (a * (10 : Int) ^ sa) 0 = none := by
      unfold checked_rem
      rw [if_pos (Or.inl rfl)]
    unfold rem_decimals_checked
    simp only [pow10u32_eq_some _ hpr, hcm, hcr]
  · exact div_checked_scale_overflow s w a2 0 sa2 sb2 hpd2 hov1
  · exact rem_checked_scale_overflow s w a2 0 sa2 sb2 hpr2 hov2

/-- C1 amended witness: on u64, `5 / (0, scale 1)` and `5 % (0, _)` give
DivisionByZero, while dividend `2 ^ 63` with factor `10` gives Overflow
although the divisor is zero. -/
theorem c1_zero_divisor_attribution_witness :
    divide_decimals_checked false 64 5 0 1 1 =
        COut.err DecimalOperationError.DivisionByZero ∧
      rem_decimals_checked false 64 5 0 1 1 =
        COut.err DecimalOperationError.DivisionByZero ∧
      divide_decimals_checked false 64 (2 ^ 63) 0 1 1 =
        COut.err DecimalOperationError.Overflow ∧
      rem_decimals_checked false 64 (2 ^ 63) 0 1 1 =
        COut.err DecimalOperationError.Overflow :=
  c1_zero_divisor_attribution false 64 5 (2 ^ 63) 1 1 1 1
    (by decide) (by decide) (by decide) (by decide)
    (by decide) (by decide) (by decide) (by decide)

/-- C8 counterexample: claim C8 asserts the multiply result for all scales
`sa`, `sb`, but the result scale is computed with unchecked u32 addition,
so for `sa = sb = 2 ^ 31` (valid u32 scales) the scale sum overflows u32
and neither engine returns the claimed pair `(a * b, sa + sb)`: the
unchecked engine aborts and the checked engine aborts outside its error
channel. -/
theorem c8_scale_sum_overflow_counterexample :
    multiply_decimals false 64 2 3 (2 ^ 31) (2 ^ 31) ≠
        some (2 * 3, 2 ^ 31 + 2 ^ 31) ∧
      multiply_decimals_checked false 64 2 3 (2 ^ 31) (2 ^ 31) ≠
        COut.ok (2 * 3) (2 ^ 31 + 2 ^ 31) ∧
      multiply_decimals false 64 2 3 (2 ^ 31) (2 ^ 31) = none ∧
      multiply_decimals_checked false 64 2 3 (2 ^ 31) (2 ^ 31) = COut.abort := by
  refine ⟨by decide, by decide, by decide, by decide⟩

/-- C8 amended: for all magnitudes whose product stays in range and all
scales whose sum does not exceed u32::MAX, both engines return the raw
product as magnitude and the scale sum as result scale.  (The claim as
frozen quantified over all scales; the u32 scale addition forces the
added precondition on the scale sum.) -/
theorem c8_multiply_product_and_scale_sum (s : Bool) (w : Nat) (a b : Int)
    (sa sb : Nat) (hw : 0 < w) (hm : inRange s w (a * b))
    (hsc : sa + sb ≤ u32Max) :
    multiply_decimals s w a b sa sb = some (a * b, sa + sb) ∧
    multiply_decimals_checked s w a b sa sb = COut.ok (a * b) (sa + sb) :=
  mul_agree s w a b sa sb hw hm hsc

/-- C8 amended witness: the spec's literal scenario
`multiply((30000, 4), (200, 2))` on u64 gives `(6000000, 6)`. -/
theorem c8_multiply_product_and_scale_sum_witness :
    multiply_decimals false 64 30000 200 4 2 = some (30000 * 200, 4 + 2) ∧
    multiply_decimals_checked false 64 30000 200 4 2 =
      COut.ok (30000 * 200) (4 + 2) :=
  c8_multiply_product_and_scale_sum false 64 30000 200 4 2
    (by decide) (by decide) (by decide)

/-- C10: `multiply_decimals_checked` computes its result scale with the
unchecked u32 addition of the two scale counts.  When the product is
representable but the scale sum exceeds u32::MAX the operation aborts
outside the error channel; under the precondition that the scale sum fits
u32 the operation is total with result scale the scale sum; and the error
channel fires exactly for magnitude-product overflow (Overflow), never for
scale-count overflow. -/
theorem c10_multiply_scale_addition_unchecked (s : Bool) (w : Nat)
    (a1 b1 a2 b2 a3 b3 : Int) (sa1 sb1 sa2 sb2 sa3 sb3 : Nat)
    (h1 : inRange s w (a1 * b1)) (h2 : u32Max < sa1 + sb1)
    (h3 : inRange s w (a2 * b2)) (h4 : sa2 + sb2 ≤ u32Max)
    (h5 : ¬ inRange s w (a3 * b3)) :
    multiply_decimals_checked s w a1 b1 sa1 sb1 = COut.abort ∧
    multiply_decimals_checked s w a2 b2 sa2 sb2 = COut.ok (a2 * b2) (sa2 + sb2) ∧
    multiply_decimals_checked s w a3 b3 sa3 sb3 =
      COut.err DecimalOperationError.Overflow := by
  refine ⟨?_, ?_, ?_⟩
  · have hcm : checked_mul s w a1 b1 = some (a1 * b1) := by
      unfold checked_mul
      rw [if_pos h1]
    unfold multiply_decimals_checked
    simp only [hcm, u32add_eq_none _ _ h2]
  · have hcm : checked_mul s w a2 b2 = some (a2 * b2) := by
      unfold checked_mul
      rw [if_pos h3]
    unfold multiply_decimals_checked
    simp only [hcm, u32add_eq_some _ _ h4]
  · exact mul_checked_overflow s w a3 b3 sa3 sb3 h5

/-- C10 witness: on u64, a representable product with scale counts summing
to `2 ^ 32` aborts; the literal multiply scenario succeeds; and an
overflowing product reports Overflow even with huge scale counts. -/
theorem c10_multiply_scale_addition_unchecked_witness :
    multiply_decimals_checked false 64 2 3 (2 ^ 31) (2 ^ 31) = COut.abort ∧
    multiply_decimals_checked false 64 30000 200 4 2 =
      COut.ok (30000 * 200) (4 + 2) ∧
    multiply_decimals_checked false 64 (2 ^ 32) (2 ^ 32) (2 ^ 31) (2 ^ 31) =
      COut.err DecimalOperationError.Overflow :=
  c10_multiply_scale_addition_unchecked false 64 2 3 30000 200 (2 ^ 32) (2 ^ 32)
    (2 ^ 31) (2 ^ 31) 4 2 (2 ^ 31) (2 ^ 31)
    (by decide) (by decide) (by decide) (by decide) (by decide)

/-- C9: in both engines the scale factor is built as u32 exponentiation
before conversion into the magnitude type; stated per operation on its own
scales: when the relevant exponent (the scale difference for add/sub, the
divisor scale for divide, the dividend scale for remainder) makes `10 ^ e`
exceed u32::MAX, that operation aborts regardless of how wide the
magnitude type is; and under the precondition `10 ^ e ≤ u32::MAX` the
factor construction itself never fails. -/
theorem c9_factor_is_u32_bounded (s : Bool) (w : Nat) (a b : Int)
    (sa1 sb1 sa2 sb2 sa3 sb3 e : Nat)
    (hAS : ¬(10 ^ (sa1 - sb1) ≤ u32Max ∧ 10 ^ (sb1 - sa1) ≤ u32Max))
    (hD : u32Max < 10 ^ sb2) (hR : u32Max < 10 ^ sa3)
    (hE : 10 ^ e ≤ u32Max) :
    add_decimals s w a b sa1 sb1 = none ∧
    sub_decimals s w a b sa1 sb1 = none ∧
    add_decimals_checked s w a b sa1 sb1 = COut.abort ∧
    sub_decimals_checked s w a b sa1 sb1 = COut.abort ∧
    divide_decimals s w a b sa2 sb2 = none ∧
    divide_decimals_checked s w a b sa2 sb2 = COut.abort ∧
    rem_decimals s w a b sa3 sb3 = none ∧
    rem_decimals_checked s w a b sa3 sb3 = COut.abort ∧
    pow10u32 e = some (10 ^ e) := by
  have hfail : (sa1 > sb1 ∧ u32Max < 10 ^ (sa1 - sb1)) ∨
      (¬ sa1 > sb1 ∧ u32Max < 10 ^ (sb1 - sa1)) := by
    by_cases hgt : sa1 > sb1
    · left
      refine ⟨hgt, ?_⟩
      have h0 : (10 : Nat) ^ (sb1 - sa1) ≤ u32Max := by
        rw [Nat.sub_eq_zero_of_le (le_of_lt hgt)]
        norm_num [u32Max]
      by_contra h
      exact hAS ⟨Nat.le_of_not_lt h, h0⟩
    · right
      refine ⟨hgt, ?_⟩
      have h0 : (10 : Nat) ^ (sa1 - sb1) ≤ u32Max := by
        rw [Nat.sub_eq_zero_of_le (Nat.le_of_not_lt hgt)]
        norm_num [u32Max]
      by_contra h
      exact hAS ⟨h0, Nat.le_of_not_lt h⟩
  refine ⟨?_, ?_, ?_, ?_, ?_, ?_, ?_, ?_, pow10u32_eq_some e hE⟩
  · rcases hfail with ⟨hgt, hf⟩ | ⟨hgt, hf⟩
    · unfold add_decimals
      rw [if_pos hgt]
      simp only [pow10u32_eq_none _ hf]
    · unfold add_decimals
      rw [if_neg hgt]
      simp only [pow10u32_eq_none _ hf]
  · rcases hfail with ⟨hgt, hf⟩ | ⟨hgt, hf⟩
    · unfold sub_decimals
      rw [if_pos hgt]
      simp only [pow10u32_eq_none _ hf]
    · unfold sub_decimals
      rw [if_neg hgt]
      simp only [pow10u32_eq_none _ hf]
  · rcases hfail with ⟨hgt, hf⟩ | ⟨hgt, hf⟩
    · unfold add_decimals_checked
      rw [if_pos hgt]
      simp only [pow10u32_eq_none _ hf]
    · unfold add_decimals_checked
      rw [if_neg hgt]
      simp only [pow10u32_eq_none _ hf]
  · rcases hfail with ⟨hgt, hf⟩ | ⟨hgt, hf⟩
    · unfold sub_decimals_checked
      rw [if_pos hgt]
      simp only [pow10u32_eq_none _ hf]
    · unfold sub_decimals_checked
      rw [if_neg hgt]
      simp only [pow10u32_eq_none _ hf]
  · unfold divide_decimals
    simp only [pow10u32_eq_none _ hD]
  · unfold divide_decimals_checked
    simp only [pow10u32_eq_none _ hD]
  · unfold rem_decimals
    simp only [pow10u32_eq_none _ hR]
  · unfold rem_decimals_checked
    simp only [pow10u32_eq_none _ hR]

/-- C9 witness: at width 128 (where `10 ^ 10` itself would be
representable) add and sub at scales (0, 10) abort, divide with divisor
scale 10 and dividend scale 0 aborts, remainder with dividend scale 10
aborts, while exponent 9 still builds its factor. -/
theorem c9_factor_is_u32_bounded_witness :
    add_decimals false 128 1 1 0 10 = none ∧
    sub_decimals false 128 1 1 0 10 = none ∧
    add_decimals_checked false 128 1 1 0 10 = COut.abort ∧
    sub_decimals_checked false 128 1 1 0 10 = COut.abort ∧
    divide_decimals false 128 1 1 0 10 = none ∧
    divide_decimals_checked false 128 1 1 0 10 = COut.abort ∧
    rem_decimals false 128 1 1 10 0 = none ∧
    rem_decimals_checked false 128 1 1 10 0 = COut.abort ∧
    pow10u32 9 = some (10 ^ 9) :=
  c9_factor_is_u32_bounded false 128 1 1 0 10 0 10 10 0 9
    (by decide) (by decide) (by decide) (by decide)

/-- C3: whenever an arithmetic step of the corresponding unchecked
operation (the scale-factor multiplication, or the primary add, subtract
or multiply step) falls outside the representable range of the magnitude
type, the checked operation returns the Overflow failure rather than an
Ok with a wrapped magnitude; stated per operation on its own inputs.  The
factor exponents are assumed inside the u32 budget so that the factor
construction itself succeeds. -/
theorem c3_overflow_always_reported (s : Bool) (w : Nat)
    (a1 b1 a2 b2 a3 b3 a4 b4 a5 b5 : Int)
    (sa1 sb1 sa2 sb2 sa3 sb3 sa4 sb4 sa5 sb5 : Nat)
    (hp11 : 10 ^ (sa1 - sb1) ≤ u32Max) (hp12 : 10 ^ (sb1 - sa1) ≤ u32Max)
    (hA : ¬ addStepsInRange s w a1 b1 sa1 sb1)
    (hp21 : 10 ^ (sa2 - sb2) ≤ u32Max) (hp22 : 10 ^ (sb2 - sa2) ≤ u32Max)
    (hS : ¬ subStepsInRange s w a2 b2 sa2 sb2)
    (hM : ¬ inRange s w (a3 * b3))
    (hpD : 10 ^ sb4 ≤ u32Max)
    (hD : ¬ inRange s w (a4 * (10 : Int) ^ sb4))
    (hpR : 10 ^ sa5 ≤ u32Max)
    (hR : ¬ inRange s w (a5 * (10 : Int) ^ sa5)) :
    add_decimals_checked s w a1 b1 sa1 sb1 =
        COut.err DecimalOperationError.Overflow ∧
      sub_decimals_checked s w a2 b2 sa2 sb2 =
        COut.err DecimalOperationError.Overflow ∧
      multiply_decimals_checked s w a3 b3 sa3 sb3 =
        COut.err DecimalOperationError.Overflow ∧
      divide_decimals_checked s w a4 b4 sa4 sb4 =
        COut.err DecimalOperationError.Overflow ∧
      rem_decimals_checked s w a5 b5 sa5 sb5 =
        COut.err DecimalOperationError.Overflow :=
  ⟨add_checked_overflow s w a1 b1 sa1 sb1 hp11 hp12 hA,
    sub_checked_overflow s w a2 b2 sa2 sb2 hp21 hp22 hS,
    mul_checked_overflow s w a3 b3 sa3 sb3 hM,
    div_checked_scale_overflow s w a4 b4 sa4 sb4 hpD hD,
    rem_checked_scale_overflow s w a5 b5 sa5 sb5 hpR hR⟩

/-- C3 witness: per operation on u64 — an add where only the add step
overflows (dividend 2^64 - 1 plus 1 at equal scales), a sub that goes
below zero (0 - 1), a mul whose product overflows (2^32 times 2^32), and
a divide and a rem whose scale-factor multiplications overflow
(2^63 times 10). -/
theorem c3_overflow_always_reported_witness :
    add_decimals_checked false 64 (2 ^ 64 - 1) 1 0 0 =
        COut.err DecimalOperationError.Overflow ∧
      sub_decimals_checked false 64 0 1 0 0 =
        COut.err DecimalOperationError.Overflow ∧
      multiply_decimals_checked false 64 (2 ^ 32) (2 ^ 32) 0 0 =
        COut.err DecimalOperationError.Overflow ∧
      divide_decimals_checked false 64 (2 ^ 63) 1 0 1 =
        COut.err DecimalOperationError.Overflow ∧
      rem_decimals_checked false 64 (2 ^ 63) 1 1 0 =
        COut.err DecimalOperationError.Overflow :=
  c3_overflow_always_reported false 64 (2 ^ 64 - 1) 1 0 1 (2 ^ 32) (2 ^ 32)
    (2 ^ 63) 1 (2 ^ 63) 1 0 0 0 0 0 0 0 1 1 0
    (by decide) (by decide) (by decide)
    (by decide) (by decide) (by decide)
    (by decide) (by decide) (by decide)
    (by decide) (by decide)

/-- C2: on inputs where the unchecked operation encounters no overflow and
no zero divisor (stated per operation on its own inputs), the checked
operation returns Ok of exactly the magnitude/scale pair the unchecked
operation returns, for all five operations of both engines. -/
theorem c2_checked_matches_unchecked (s : Bool) (w : Nat)
    (a1 b1 a2 b2 a3 b3 a4 b4 a5 b5 : Int)
    (sa1 sb1 sa2 sb2 sa3 sb3 sa4 sb4 sa5 sb5 : Nat) (hw : 0 < w)
    (hp11 : 10 ^ (sa1 - sb1) ≤ u32Max) (hp12 : 10 ^ (sb1 - sa1) ≤ u32Max)
    (hA : addStepsInRange s w a1 b1 sa1 sb1)
    (hp21 : 10 ^ (sa2 - sb2) ≤ u32Max) (hp22 : 10 ^ (sb2 - sa2) ≤ u32Max)
    (hS : subStepsInRange s w a2 b2 sa2 sb2)
    (hM : inRange s w (a3 * b3)) (hsc : sa3 + sb3 ≤ u32Max)
    (hpD : 10 ^ sb4 ≤ u32Max) (hb4 : b4 ≠ 0)
    (hD : inRange s w (a4 * (10 : Int) ^ sb4))
    (hD2 : ¬(s = true ∧ a4 * (10 : Int) ^ sb4 = intMin s w ∧ b4 = -1))
    (hpR : 10 ^ sa5 ≤ u32Max) (hb5 : b5 ≠ 0)
    (hR : inRange s w (a5 * (10 : Int) ^ sa5))
    (hR2 : ¬(s = true ∧ a5 * (10 : Int) ^ sa5 = intMin s w ∧ b5 = -1)) :
    add_decimals s w a1 b1 sa1 sb1 = some (alignedAdd a1 b1 sa1 sb1) ∧
    add_decimals_checked s w a1 b1 sa1 sb1 =
      COut.ok (alignedAdd a1 b1 sa1 sb1).1 (alignedAdd a1 b1 sa1 sb1).2 ∧
    sub_decimals s w a2 b2 sa2 sb2 = some (alignedSub a2 b2 sa2 sb2) ∧
    sub_decimals_checked s w a2 b2 sa2 sb2 =
      COut.ok (alignedSub a2 b2 sa2 sb2).1 (alignedSub a2 b2 sa2 sb2).2 ∧
    multiply_decimals s w a3 b3 sa3 sb3 = some (a3 * b3, sa3 + sb3) ∧
    multiply_decimals_checked s w a3 b3 sa3 sb3 =
      COut.ok (a3 * b3) (sa3 + sb3) ∧
    divide_decimals s w a4 b4 sa4 sb4 =
      some (Int.tdiv (a4 * (10 : Int) ^ sb4) b4, sa4) ∧
    divide_decimals_checked s w a4 b4 sa4 sb4 =
      COut.ok (Int.tdiv (a4 * (10 : Int) ^ sb4) b4) sa4 ∧
    rem_decimals s w a5 b5 sa5 sb5 =
      some (Int.tmod (a5 * (10 : Int) ^ sa5) b5, sa5) ∧
    rem_decimals_checked s w a5 b5 sa5 sb5 =
      COut.ok (Int.tmod (a5 * (10 : Int) ^ sa5) b5) sa5 := by
  obtain ⟨e1, e2⟩ := add_agree s w a1 b1 sa1 sb1 hw hp11 hp12 hA
  obtain ⟨e3, e4⟩ := sub_agree s w a2 b2 sa2 sb2 hw hp21 hp22 hS
  obtain ⟨e5, e6⟩ := mul_agree s w a3 b3 sa3 sb3 hw hM hsc
  obtain ⟨e7, e8⟩ := div_agree s w a4 b4 sa4 sb4 hw hpD hb4 hD hD2
  obtain ⟨e9, e10⟩ := rem_agree s w a5 b5 sa5 sb5 hw hpR hb5 hR hR2
  exact ⟨e1, e2, e3, e4, e5, e6, e7, e8, e9, e10⟩

/-- C2 witness: the spec's literal u64 scenarios, one per operation. -/
theorem c2_checked_matches_unchecked_witness :
    add_decimals false 64 10000 200 4 2 = some (alignedAdd 10000 200 4 2) ∧
    add_decimals_checked false 64 10000 200 4 2 =
      COut.ok (alignedAdd 10000 200 4 2).1 (alignedAdd 10000 200 4 2).2 ∧
    sub_decimals false 64 30000 200 4 2 = some (alignedSub 30000 200 4 2) ∧
    sub_decimals_checked false 64 30000 200 4 2 =
      COut.ok (alignedSub 30000 200 4 2).1 (alignedSub 30000 200 4 2).2 ∧
    multiply_decimals false 64 30000 200 4 2 = some (30000 * 200, 4 + 2) ∧
    multiply_decimals_checked false 64 30000 200 4 2 =
      COut.ok (30000 * 200) (4 + 2) ∧
    divide_decimals false 64 60000 200 4 2 =
      some (Int.tdiv (60000 * (10 : Int) ^ 2) 200, 4) ∧
    divide_decimals_checked false 64 60000 200 4 2 =
      COut.ok (Int.tdiv (60000 * (10 : Int) ^ 2) 200) 4 ∧
    rem_decimals false 64 60000 200 4 2 =
      some (Int.tmod (60000 * (10 : Int) ^ 4) 200, 4) ∧
    rem_decimals_checked false 64 60000 200 4 2 =
      COut.ok (Int.tmod (60000 * (10 : Int) ^ 4) 200) 4 :=
  c2_checked_matches_unchecked false 64 10000 200 30000 200 30000 200
    60000 200 60000 200 4 2 4 2 4 2 4 2 4 2 (by decide)
    (by decide) (by decide) (by decide)
    (by decide) (by decide) (by decide)
    (by decide) (by decide)
    (by decide) (by decide) (by decide) (by decide)
    (by decide) (by decide) (by decide) (by decide)

/-- C4: scale alignment of add and sub.  When the first scale is larger,
the second magnitude is multiplied by ten to the scale difference and
combined (with the type's native arithmetic) against the first, the result
carrying the first scale; otherwise — equal scales included — the first
magnitude is multiplied by ten to the scale difference and combined with
the second, the result carrying the second scale. -/
theorem c4_add_sub_scale_alignment (s : Bool) (w : Nat) (a b : Int)
    (sa sb ta tb : Nat) (hgt : sa > sb) (hle : ta ≤ tb)
    (hp1 : 10 ^ (sa - sb) ≤ u32Max) (hp2 : 10 ^ (tb - ta) ≤ u32Max) :
    add_decimals s w a b sa sb =
      some (wrap s w (a + wrap s w (b * (10 : Int) ^ (sa - sb))), sa) ∧
    sub_decimals s w a b sa sb =
      some (wrap s w (a - wrap s w (b * (10 : Int) ^ (sa - sb))), sa) ∧
    add_decimals s w a b ta tb =
      some (wrap s w (wrap s w (a * (10 : Int) ^ (tb - ta)) + b), tb) ∧
    sub_decimals s w a b ta tb =
      some (wrap s w (wrap s w (a * (10 : Int) ^ (tb - ta)) - b), tb) := by
  have hnlt : ¬ ta > tb := Nat.not_lt.mpr hle
  refine ⟨?_, ?_, ?_, ?_⟩
  · unfold add_decimals
    rw [if_pos hgt]
    simp only [pow10u32_eq_some _ hp1, cast_pow10]
  · unfold sub_decimals
    rw [if_pos hgt]
    simp only [pow10u32_eq_some _ hp1, cast_pow10]
  · unfold add_decimals
    rw [if_neg hnlt]
    simp only [pow10u32_eq_some _ hp2, cast_pow10]
  · unfold sub_decimals
    rw [if_neg hnlt]
    simp only [pow10u32_eq_some _ hp2, cast_pow10]

/-- C4 witness: scales (4, 2) exercise the first branch and the equal
scales (2, 2) exercise the second branch. -/
theorem c4_add_sub_scale_alignment_witness :
    add_decimals false 64 10000 200 4 2 =
      some (wrap false 64 (10000 + wrap false 64 (200 * (10 : Int) ^ (4 - 2))), 4) ∧
    sub_decimals false 64 30000 200 4 2 =
      some (wrap false 64 (30000 - wrap false 64 (200 * (10 : Int) ^ (4 - 2))), 4) ∧
    add_decimals false 64 10000 200 2 2 =
      some (wrap false 64 (wrap false 64 (10000 * (10 : Int) ^ (2 - 2)) + 200), 2) ∧
    sub_decimals false 64 10000 200 2 2 =
      some (wrap false 64 (wrap false 64 (10000 * (10 : Int) ^ (2 - 2)) - 200), 2) := by
  have h := c4_add_sub_scale_alignment false 64 10000 200 4 2 2 2
    (by decide) (by decide) (by decide) (by decide)
  obtain ⟨h1, h2, h3, h4⟩ := h
  have h2s : sub_decimals false 64 30000 200 4 2 =
      some (wrap false 64 (30000 - wrap false 64 (200 * (10 : Int) ^ (4 - 2))), 4) := by
    have h5 := (c4_add_sub_scale_alignment false 64 30000 200 4 2 2 2
      (by decide) (by decide) (by decide) (by decide)).2.1
    exact h5
  exact ⟨h1, h2s, h3, h4⟩

/-- C5: divide scales the dividend by ten to the divisor's scale, divides
by the divisor's raw magnitude with truncating division, and keeps the
dividend's original scale; in particular the spec's literal scenario
`divide((12345, 2), (45, 2))` gives `(27433, 2)`. -/
theorem c5_divide_truncating_dividend_scale (s : Bool) (w : Nat) (a b : Int)
    (sa sb : Nat) (hw : 0 < w) (hp : 10 ^ sb ≤ u32Max) (hb : b ≠ 0)
    (hadj : inRange s w (a * (10 : Int) ^ sb))
    (hnov : ¬(s = true ∧ a * (10 : Int) ^ sb = intMin s w ∧ b = -1)) :
    divide_decimals s w a b sa sb =
      some (Int.tdiv (a * (10 : Int) ^ sb) b, sa) ∧
    divide_decimals_checked s w a b sa sb =
      COut.ok (Int.tdiv (a * (10 : Int) ^ sb) b) sa ∧
    divide_decimals false 64 12345 45 2 2 = some (27433, 2) := by
  obtain ⟨e1, e2⟩ := div_agree s w a b sa sb hw hp hb hadj hnov
  exact ⟨e1, e2, by decide⟩

/-- C5 witness: the literal scenario `divide((12345, 2), (45, 2))` itself,
whose truncating quotient is 27433. -/
theorem c5_divide_truncating_dividend_scale_witness :
    divide_decimals false 64 12345 45 2 2 =
      some (Int.tdiv (12345 * (10 : Int) ^ 2) 45, 2) ∧
    divide_decimals_checked false 64 12345 45 2 2 =
      COut.ok (Int.tdiv (12345 * (10 : Int) ^ 2) 45) 2 ∧
    divide_decimals false 64 12345 45 2 2 = some (27433, 2) :=
  c5_divide_truncating_dividend_scale false 64 12345 45 2 2
    (by decide) (by decide) (by decide) (by decide) (by decide)

/-- C6: remainder scales the dividend by ten to the dividend's own scale
(not the divisor's), keeps the dividend's scale, and ignores the
caller-supplied divisor scale entirely: two calls differing only in that
argument return identical results, in both engines. -/
theorem c6_rem_own_scale_other_unused (s : Bool) (w : Nat) (a b : Int)
    (sa sb1 sb2 : Nat) (hw : 0 < w) (hp : 10 ^ sa ≤ u32Max) (hb : b ≠ 0)
    (hadj : inRange s w (a * (10 : Int) ^ sa))
    (hnov : ¬(s = true ∧ a * (10 : Int) ^ sa = intMin s w ∧ b = -1)) :
    rem_decimals s w a b sa sb1 =
      some (Int.tmod (a * (10 : Int) ^ sa) b, sa) ∧
    rem_decimals_checked s w a b sa sb1 =
      COut.ok (Int.tmod (a * (10 : Int) ^ sa) b) sa ∧
    rem_decimals s w a b sa sb1 = rem_decimals s w a b sa sb2 ∧
    rem_decimals_checked s w a b sa sb1 =
      rem_decimals_checked s w a b sa sb2 := by
  obtain ⟨e1, e2⟩ := rem_agree s w a b sa sb1 hw hp hb hadj hnov
  exact ⟨e1, e2, rfl, rfl⟩

/-- C6 witness: `rem((60000, 4), (200, _))` on u64 gives `(0, 4)` whatever
the divisor scale argument is (here 2 and 9). -/
theorem c6_rem_own_scale_other_unused_witness :
    rem_decimals false 64 60000 200 4 2 =
      some (Int.tmod (60000 * (10 : Int) ^ 4) 200, 4) ∧
    rem_decimals_checked false 64 60000 200 4 2 =
      COut.ok (Int.tmod (60000 * (10 : Int) ^ 4) 200) 4 ∧
    rem_decimals false 64 60000 200 4 2 = rem_decimals false 64 60000 200 4 9 ∧
    rem_decimals_checked false 64 60000 200 4 2 =
      rem_decimals_checked false 64 60000 200 4 9 :=
  c6_rem_own_scale_other_unused false 64 60000 200 4 2 9
    (by decide) (by decide) (by decide) (by decide) (by decide)

/-- C7: adding `(b, sb)` to `(a, sa)` and then subtracting `(b, sb)` from
the intermediate value at its resulting scale returns the value
numerically equal to `a` at scale `max sa sb`: the magnitude
`a * 10 ^ (max sa sb - sa)` at scale `max sa sb`, provided no arithmetic
step leaves the representable range. -/
theorem c7_add_then_sub_roundtrip (s : Bool) (w : Nat) (a b c : Int)
    (sa sb d : Nat) (hw : 0 < w)
    (hp1 : 10 ^ (sa - sb) ≤ u32Max) (hp2 : 10 ^ (sb - sa) ≤ u32Max)
    (hSteps : addStepsInRange s w a b sa sb)
    (hres : inRange s w (a * (10 : Int) ^ (max sa sb - sa)))
    (hc : add_decimals s w a b sa sb = some (c, d)) :
    d = max sa sb ∧
    sub_decimals s w c b d sb =
      some (a * (10 : Int) ^ (max sa sb - sa), max sa sb) := by
  have hadd := (add_agree s w a b sa sb hw hp1 hp2 hSteps).1
  rw [hadd] at hc
  have hcd : alignedAdd a b sa sb = (c, d) := Option.some.inj hc
  by_cases hgt : sa > sb
  · have hmax : max sa sb = sa := Nat.max_eq_left (le_of_lt hgt)
    unfold alignedAdd at hcd
    rw [if_pos hgt] at hcd
    simp only [Prod.mk.injEq] at hcd
    obtain ⟨hcc, hdd⟩ := hcd
    subst hdd
    subst hcc
    unfold addStepsInRange at hSteps
    rw [if_pos hgt] at hSteps
    obtain ⟨h1, h2⟩ := hSteps
    rw [hmax] at hres ⊢
    rw [Nat.sub_self] at hres ⊢
    rw [pow_zero, mul_one] at hres ⊢
    refine ⟨rfl, ?_⟩
    unfold sub_decimals
    rw [if_pos hgt]
    simp only [pow10u32_eq_some _ hp1, cast_pow10,
      wrap_eq_of_inRange s w _ hw h1]
    have he : a + b * (10 : Int) ^ (sa - sb) - b * (10 : Int) ^ (sa - sb)
        = a := by ring
    rw [he, wrap_eq_of_inRange s w a hw hres]
  · have hle : sa ≤ sb := Nat.not_lt.mp hgt
    have hmax : max sa sb = sb := Nat.max_eq_right hle
    unfold alignedAdd at hcd
    rw [if_neg hgt] at hcd
    simp only [Prod.mk.injEq] at hcd
    obtain ⟨hcc, hdd⟩ := hcd
    subst hdd
    subst hcc
    unfold addStepsInRange at hSteps
    rw [if_neg hgt] at hSteps
    obtain ⟨h1, h2⟩ := hSteps
    rw [hmax] at hres ⊢
    refine ⟨rfl, ?_⟩
    unfold sub_decimals
    rw [if_neg (lt_irrefl sb), Nat.sub_self]
    simp only [pow10u32_eq_some 0 (by norm_num [u32Max]), pow_zero,
      Nat.cast_one, mul_one, wrap_eq_of_inRange s w _ hw h2]
    have he : a * (10 : Int) ^ (sb - sa) + b - b
        = a * (10 : Int) ^ (sb - sa) := by ring
    rw [he, wrap_eq_of_inRange s w _ hw h1]

/-- C7 witness: `(10000, 4) + (200, 2) = (30000, 4)` and subtracting
`(200, 2)` back gives `(10000, 4)`, the original value at scale
`max 4 2 = 4`. -/
theorem c7_add_then_sub_roundtrip_witness :
    4 = max 4 2 ∧
    sub_decimals false 64 30000 200 4 2 =
      some (10000 * (10 : Int) ^ (max 4 2 - 4), max 4 2) :=
  c7_add_then_sub_roundtrip false 64 10000 200 30000 4 2 4
    (by decide) (by decide) (by decide) (by decide) (by decide) (by decide)
